import Mathlib

/-!
Verification of the organisation registration form page
(`src/app/(auth-routes)/register/organisation/page.tsx`).

The page validates a seven-field form with a zod schema, and on valid
submit POSTs the data (plus `user_id` from the session and a constant
`description`) to `{apiUrl}/api/v1/organizations`, branching on the
response: 2xx success (toast + navigate), 422 (map server field errors
into form state), any other failure (generic toast).

We embed the form data, the zod schema checks, and the submit handler as
an event-trace producing function, and prove the spec's claims about it.
-/

namespace OrgRegistration

/-- The seven form fields, `type FormData = z.infer<typeof formSchema>`. -/
structure FormData where
  name : String
  email : String
  industry : String
  type : String
  country : String
  state : String
  address : String
deriving Repr, DecidableEq

/-! ### Email validity, after zod's `z.string().email()` check

zod (3.23.x) validates emails with the regex
`^(?!\.)(?!.*\.\.)([A-Za-z0-9_'+\-\.]*)[A-Za-z0-9_+-]@([A-Za-z0-9][A-Za-z0-9\-]*\.)+[A-Za-z]{2,}$`.
We transcribe it: the string must not start with a dot, must contain no
two consecutive dots, and must split at the single `@` into a local part
(local characters, ending in a non-dot local character) and a domain
(one or more alphanumeric-starting labels separated by dots, ending in
an alphabetic top-level label of length at least 2). -/

/-- Characters allowed in the local part (before the final character). -/
def isLocalChar (c : Char) : Bool :=
  c.isAlpha || c.isDigit || c = '_' || c = Char.ofNat 39 || c = '+' || c = '-' || c = '.'

/-- Characters allowed as the final character of the local part. -/
def isLocalEndChar (c : Char) : Bool :=
  c.isAlpha || c.isDigit || c = '_' || c = '+' || c = '-'

/-- Characters allowed after the first character of a domain label. -/
def isDomainChar (c : Char) : Bool :=
  c.isAlpha || c.isDigit || c = '-'

/-- Whether the character list contains two consecutive dots. -/
def hasDoubleDot : List Char → Bool
  | [] => false
  | [_] => false
  | a :: b :: rest => (a = '.' && b = '.') || hasDoubleDot (b :: rest)

/-- Split a character list on a separator character. -/
def splitOnChar (sep : Char) : List Char → List (List Char)
  | [] => [[]]
  | c :: rest =>
    let r := splitOnChar sep rest
    if c = sep then [] :: r
    else
      match r with
      | [] => [[c]]
      | h :: t => (c :: h) :: t

/-- The local part: nonempty, all local characters, last one a local end character. -/
def localPartOk (cs : List Char) : Bool :=
  cs.all isLocalChar &&
    (match cs.getLast? with
     | some c => isLocalEndChar c
     | none => false)

/-- A non-final domain label: nonempty, alphanumeric first character. -/
def labelOk : List Char → Bool
  | [] => false
  | c :: rest => (c.isAlpha || c.isDigit) && rest.all isDomainChar

/-- The final (top-level) domain label: alphabetic, length at least 2. -/
def tldOk (cs : List Char) : Bool :=
  decide (2 ≤ cs.length) && cs.all Char.isAlpha

/-- The domain part: at least one dot-separated label before an alphabetic TLD. -/
def domainOk (cs : List Char) : Bool :=
  let parts := splitOnChar '.' cs
  decide (2 ≤ parts.length) && parts.dropLast.all labelOk &&
    (match parts.getLast? with
     | some t => tldOk t
     | none => false)

/-- `z.string().email()` as transcribed above. -/
def emailValid (s : String) : Bool :=
  let cs := s.toList
  (match cs.head? with
   | some c => decide (c ≠ '.')
   | none => true) &&
  !hasDoubleDot cs &&
  (match splitOnChar '@' cs with
   | [localCs, domainCs] => localPartOk localCs && domainOk domainCs
   | _ => false)

/-! ### The zod `formSchema` (page.tsx lines 33-55) -/

/-- Per-field validation messages, one `Option String` per form field,
also the shape of the form's field-error state. -/
structure FieldErrors where
  name : Option String
  email : Option String
  industry : Option String
  type : Option String
  country : Option String
  state : Option String
  address : Option String
deriving Repr, DecidableEq

/-- The empty field-error state (also what `form.clearErrors()` restores). -/
def noErrors : FieldErrors :=
  { name := none, email := none, industry := none, type := none,
    country := none, state := none, address := none }

/-- `z.string().min(n, { message })`: error iff the string is shorter than `n`. -/
def minCheck (n : Nat) (message : String) (s : String) : Option String :=
  if n ≤ s.length then none else some message

/-- `z.string().email({ message })`: error iff the string is not a valid email. -/
def emailCheck (message : String) (s : String) : Option String :=
  if emailValid s then none else some message

/-- The `formSchema` checks, field by field, with the exact messages of the page. -/
def validate (d : FormData) : FieldErrors :=
  { name := minCheck 2 "Company name must be at least 2 characters." d.name
    email := emailCheck "Company email must be a valid email address." d.email
    industry := minCheck 1 "Please select an industry." d.industry
    type := minCheck 1 "Please select an organization type." d.type
    country := minCheck 1 "Please select a country." d.country
    state := minCheck 1 "Please select a state." d.state
    address := minCheck 1 "Please enter company address." d.address }

/-- Whether any field failed validation. -/
def hasError (e : FieldErrors) : Bool :=
  e.name.isSome || e.email.isSome || e.industry.isSome || e.type.isSome ||
    e.country.isSome || e.state.isSome || e.address.isSome

/-! ### The select options offered by the page's four `Select` controls -/

/-- The industry options rendered in the page's industry `SelectContent`. -/
def industryOptions : List String := ["Technology"]

/-- The organization type options rendered in the page. -/
def typeOptions : List String := ["Entertainment"]

/-- The country options rendered in the page. -/
def countryOptions : List String := ["Nigeria"]

/-- The state options rendered in the page. -/
def stateOptions : List String := ["Lagos"]

/-! ### Session, payload and HTTP response model -/

/-- The session user, `session.user` with its `id`. -/
structure User where
  id : String
deriving Repr, DecidableEq

/-- The next-auth session: `{ user, access_token }`. The whole session may be
absent (`undefined`) before authentication resolves, modelled by `Option Session`
at use sites; `user` may itself be absent. -/
structure Session where
  user : Option User
  access_token : String
deriving Repr, DecidableEq

/-- `session?.user?.id`: optional chaining through session and user. -/
def sessionUserId (s : Option Session) : Option String :=
  (s.bind Session.user).map User.id

/-- The template literal `` `Bearer ${session?.access_token}` ``: when the
session is absent, JavaScript stringifies `undefined`, yielding the literal
`"Bearer undefined"`. -/
def authHeader (s : Option Session) : String :=
  match s with
  | some ss => "Bearer " ++ ss.access_token
  | none => "Bearer " ++ "undefined"

/-- The request body built in `onSubmit`:
`{ ...data, user_id: session?.user?.id, description: "n/a" }`. -/
structure Payload where
  name : String
  email : String
  industry : String
  type : String
  country : String
  state : String
  address : String
  user_id : Option String
  description : String
deriving Repr, DecidableEq

/-- Spread of the validated data plus the two extra keys. -/
def mkPayload (d : FormData) (s : Option Session) : Payload :=
  { name := d.name, email := d.email, industry := d.industry, type := d.type,
    country := d.country, state := d.state, address := d.address,
    user_id := sessionUserId s, description := "n/a" }

/-- The request URL `` `${apiUrl}/api/v1/organizations` ``. -/
def requestUrl (apiUrl : String) : String :=
  apiUrl ++ "/api/v1/organizations"

/-- One `{ field, message }` entry of a 422 response body's `errors` array. -/
structure FieldMsg where
  field : String
  message : String
deriving Repr, DecidableEq

/-- The error-response body as the handler reads it: an optional `errors`
array (absent key modelled as `none`) and an optional `message`. -/
structure ResponseData where
  errors : Option (List FieldMsg)
  message : Option String
deriving Repr, DecidableEq

/-- An axios error's `error.response`: HTTP status and parsed body. -/
structure ErrorResponse where
  status : Nat
  data : ResponseData
deriving Repr, DecidableEq

/-- How the awaited `axios.post` settles: `ok` is a 2xx resolution;
`err (some r)` is an axios error carrying a server response `r`;
`err none` is a network/transport failure (or non-axios error), where
`axios.isAxiosError(error) && error.response` is falsy. -/
inductive Outcome where
  | ok
  | err (response : Option ErrorResponse)
deriving Repr, DecidableEq

/-! ### The submit handler as an event trace -/

/-- The observable actions the submit handler performs, in order. -/
inductive Event where
  | setLoading (b : Bool)
  | post (url : String) (payload : Payload) (auth : String)
  | toast (title description : String)
  | navigate (path : String)
  | clearAllErrors
  | setFieldError (field message : String)
deriving Repr, DecidableEq

/-- JavaScript `m || fallback` on an optional string: both `undefined`
(the key absent) and the empty string are falsy under `||`, so either
yields the fallback. -/
def jsOrElse (m : Option String) (fallback : String) : String :=
  match m with
  | some s => if s = "" then fallback else s
  | none => fallback

/-- The trace of `onSubmit` (page.tsx lines 94-141) for a given session,
resolved base URL, validated data and request outcome:
set the loading flag, issue the POST, branch on the outcome
(success toast + navigation; 422 `clearErrors` then one `setError` per
`errors` entry, with `[]` when the key is absent; otherwise a generic
toast, whose description is `data.message || fallback` — falling back
when the message is absent or empty), and finally reset the loading
flag. -/
def onSubmit (s : Option Session) (apiUrl : String) (d : FormData)
    (o : Outcome) : List Event :=
  Event.setLoading true ::
  Event.post (requestUrl apiUrl) (mkPayload d s) (authHeader s) ::
  ((match o with
    | .ok =>
        [Event.toast "Organization created successfully" "Continue to dashboard",
         Event.navigate "/dashboard"]
    | .err (some r) =>
        if r.status = 422 then
          Event.clearAllErrors ::
            (r.data.errors.getD []).map (fun e => Event.setFieldError e.field e.message)
        else
          [Event.toast "Error occurred"
            (jsOrElse r.data.message "Failed to submit the form. Please try again.")]
    | .err none =>
        [Event.toast "Error occured" "An unexpected error occurred."]) ++
   [Event.setLoading false])

/-- `form.handleSubmit(onSubmit)`: run the zod resolver; when any field
fails, surface the resolver's field errors and never call `onSubmit`
(no event occurs); otherwise run `onSubmit` on the parsed data. -/
inductive SubmitResult where
  | blocked (errors : FieldErrors)
  | submitted (trace : List Event)
deriving Repr, DecidableEq

/-- The whole submit pipeline of the page. -/
def handleSubmit (s : Option Session) (apiUrl : String) (d : FormData)
    (o : Outcome) : SubmitResult :=
  if hasError (validate d) then .blocked (validate d)
  else .submitted (onSubmit s apiUrl d o)

/-! ### Observations on traces and form state -/

/-- The POST requests occurring in a trace. -/
def posts (tr : List Event) : List Event :=
  tr.filter fun e =>
    match e with
    | .post _ _ _ => true
    | _ => false

/-- The POST requests a submit attempt issues (none when blocked). -/
def resultPosts : SubmitResult → List Event
  | .blocked _ => []
  | .submitted tr => posts tr

/-- The toasts (title, description) shown along a trace. -/
def toasts (tr : List Event) : List (String × String) :=
  tr.filterMap fun e =>
    match e with
    | .toast t dsc => some (t, dsc)
    | _ => none

/-- The navigations performed along a trace. -/
def navigations (tr : List Event) : List String :=
  tr.filterMap fun e =>
    match e with
    | .navigate p => some p
    | _ => none

/-- The `setLoading` events of a trace, in order. -/
def loadingEvents (tr : List Event) : List Event :=
  tr.filter fun e =>
    match e with
    | .setLoading _ => true
    | _ => false

/-- The seven keys of `FormData`, the codomain of the
`err.field as keyof FormData` cast. -/
inductive FieldName where
  | name | email | industry | type | country | state | address
deriving Repr, DecidableEq

/-- Parse a server-sent field name into one of the seven typed form fields,
the typed reading of the `err.field as keyof FormData` cast: any other
string names none of the seven rendered fields. -/
def parseFieldName (f : String) : Option FieldName :=
  if f = "name" then some .name
  else if f = "email" then some .email
  else if f = "industry" then some .industry
  else if f = "type" then some .type
  else if f = "country" then some .country
  else if f = "state" then some .state
  else if f = "address" then some .address
  else none

/-- Set one typed field's error message. -/
def setFieldMessage (st : FieldErrors) (fn : FieldName) (m : String) : FieldErrors :=
  match fn with
  | .name => { st with name := some m }
  | .email => { st with email := some m }
  | .industry => { st with industry := some m }
  | .type => { st with type := some m }
  | .country => { st with country := some m }
  | .state => { st with state := some m }
  | .address => { st with address := some m }

/-- `form.setError(field, { message })` on the typed field-error state:
a recognized field name updates that field's message, any other name
leaves the state unchanged. -/
def setErrorByName (st : FieldErrors) (f m : String) : FieldErrors :=
  match parseFieldName f with
  | some fn => setFieldMessage st fn m
  | none => st

/-- Effect of one trace event on the form's field-error state: only
`clearErrors` and `setError` touch it. -/
def applyEvent (st : FieldErrors) : Event → FieldErrors
  | .setLoading _ => st
  | .post _ _ _ => st
  | .toast _ _ => st
  | .navigate _ => st
  | .clearAllErrors => noErrors
  | .setFieldError f m => setErrorByName st f m

/-- Field-error state after running a trace from a starting state. -/
def applyTrace (st : FieldErrors) (tr : List Event) : FieldErrors :=
  tr.foldl applyEvent st

/-! ### Helper lemmas -/

lemma length_pos_of_ne_empty {s : String} (h : s ≠ "") : 1 ≤ s.length := by
  cases s with
  | mk data =>
    cases data with
    | nil => simp at h
    | cons a t => simp [String.length]

lemma eq_empty_of_length_lt_one {s : String} (h : s.length < 1) : s = "" := by
  cases s with
  | mk data =>
    cases data with
    | nil => rfl
    | cons a t => simp [String.length] at h

/-- The events a 422 branch maps the server's error pairs to. -/
def setErrorEvents (l : List FieldMsg) : List Event :=
  l.map fun e => Event.setFieldError e.field e.message

lemma posts_setErrorEvents (l : List FieldMsg) : posts (setErrorEvents l) = [] := by
  induction l with
  | nil => rfl
  | cons a t ih => simp [setErrorEvents, posts, List.filter]

lemma toasts_setErrorEvents (l : List FieldMsg) : toasts (setErrorEvents l) = [] := by
  induction l with
  | nil => rfl
  | cons a t ih => simp [setErrorEvents, toasts, List.filterMap]

lemma navigations_setErrorEvents (l : List FieldMsg) :
    navigations (setErrorEvents l) = [] := by
  induction l with
  | nil => rfl
  | cons a t ih => simp [setErrorEvents, navigations, List.filterMap]

lemma loadingEvents_setErrorEvents (l : List FieldMsg) :
    loadingEvents (setErrorEvents l) = [] := by
  induction l with
  | nil => rfl
  | cons a t ih => simp [setErrorEvents, loadingEvents, List.filter]

lemma foldl_applyEvent_map (st : FieldErrors) (l : List FieldMsg) :
    List.foldl applyEvent st (l.map fun e => Event.setFieldError e.field e.message) =
      l.foldl (fun acc e => setErrorByName acc e.field e.message) st := by
  rw [List.foldl_map]; rfl

lemma posts_onSubmit (s : Option Session) (u : String) (d : FormData) (o : Outcome) :
    posts (onSubmit s u d o) =
      [Event.post (requestUrl u) (mkPayload d s) (authHeader s)] := by
  cases o with
  | ok => rfl
  | err ro =>
    cases ro with
    | none => rfl
    | some r =>
      rcases r with ⟨status, rdata⟩
      by_cases h422 : status = 422
      · simp [onSubmit, h422, posts, List.filter_append]
      · simp [onSubmit, h422, posts, List.filter_append]

/-! ### The claims -/

/-- C1: whenever any required field is empty or malformed (name shorter
than 2 characters, email not a valid email, or any of
industry/type/country/state/address empty), the submit pipeline blocks:
`onSubmit` is never invoked (the result is `blocked`, whose trace is
empty, so no POST is issued) and the resolver surfaces a field-local
message on each failing field. -/
theorem invalid_input_blocks_submission (s : Option Session) (u : String)
    (d : FormData) (o : Outcome)
    (h : d.name.length < 2 ∨ emailValid d.email = false ∨ d.industry = "" ∨
         d.type = "" ∨ d.country = "" ∨ d.state = "" ∨ d.address = "") :
    handleSubmit s u d o = .blocked (validate d) ∧
    resultPosts (handleSubmit s u d o) = [] ∧
    (d.name.length < 2 → (validate d).name.isSome = true) ∧
    (emailValid d.email = false → (validate d).email.isSome = true) ∧
    (d.industry = "" → (validate d).industry.isSome = true) ∧
    (d.type = "" → (validate d).type.isSome = true) ∧
    (d.country = "" → (validate d).country.isSome = true) ∧
    (d.state = "" → (validate d).state.isSome = true) ∧
    (d.address = "" → (validate d).address.isSome = true) := by
  have c_name : d.name.length < 2 → (validate d).name.isSome = true := by
    intro hh; simp [validate, minCheck]; omega
  have c_email : emailValid d.email = false → (validate d).email.isSome = true := by
    intro hh; simp [validate, emailCheck, hh]
  have c_ind : d.industry = "" → (validate d).industry.isSome = true := by
    intro hh; simp only [validate]; rw [hh]; rfl
  have c_type : d.type = "" → (validate d).type.isSome = true := by
    intro hh; simp only [validate]; rw [hh]; rfl
  have c_country : d.country = "" → (validate d).country.isSome = true := by
    intro hh; simp only [validate]; rw [hh]; rfl
  have c_state : d.state = "" → (validate d).state.isSome = true := by
    intro hh; simp only [validate]; rw [hh]; rfl
  have c_addr : d.address = "" → (validate d).address.isSome = true := by
    intro hh; simp only [validate]; rw [hh]; rfl
  have hv : hasError (validate d) = true := by
    rcases h with h | h | h | h | h | h | h
    · simp [hasError, c_name h]
    · simp [hasError, c_email h]
    · simp [hasError, c_ind h]
    · simp [hasError, c_type h]
    · simp [hasError, c_country h]
    · simp [hasError, c_state h]
    · simp [hasError, c_addr h]
  refine ⟨?_, ?_, c_name, c_email, c_ind, c_type, c_country, c_state, c_addr⟩
  · simp [handleSubmit, hv]
  · simp [handleSubmit, hv, resultPosts]

/-- C1 witness: the concrete input with a one-character name and a
malformed email is blocked and issues no POST. -/
theorem invalid_input_blocks_submission_witness :
    ("A" : String).length < 2 ∧
    resultPosts (handleSubmit none ""
      ⟨"A", "nope", "", "Entertainment", "Nigeria", "Lagos", "1 Main St"⟩ .ok) = [] :=
  ⟨by decide,
   (invalid_input_blocks_submission none ""
      ⟨"A", "nope", "", "Entertainment", "Nigeria", "Lagos", "1 Main St"⟩ .ok
      (Or.inl (by decide))).2.1⟩

/-- C2 counterexample: the schema check accepts an industry value outside
the enumerated option set — the zod schema only requires non-emptiness,
so "every value outside the enumerated set is rejected" is false. -/
theorem schema_accepts_value_outside_options :
    "NotARealIndustry" ∉ industryOptions ∧
    hasError (validate ⟨"Acme Inc", "a@acme.com", "NotARealIndustry",
      "Entertainment", "Nigeria", "Lagos", "1 Main St"⟩) = false := by
  decide

/-- C2 amended: the schema accepts the industry, type, country and state
fields whenever they are non-empty (and the other fields pass); membership
in the enumerated option sets offered by the UI is not checked on submit. -/
theorem schema_accepts_any_nonempty_select (d : FormData)
    (hn : 2 ≤ d.name.length) (he : emailValid d.email = true)
    (hi : d.industry ≠ "") (ht : d.type ≠ "") (hc : d.country ≠ "")
    (hs : d.state ≠ "") (ha : d.address ≠ "") :
    hasError (validate d) = false := by
  simp [hasError, validate, minCheck, emailCheck, he, hn,
    length_pos_of_ne_empty hi, length_pos_of_ne_empty ht,
    length_pos_of_ne_empty hc, length_pos_of_ne_empty hs,
    length_pos_of_ne_empty ha]

/-- C2 amended witness: validation passes with an industry value outside
the enumerated options. -/
theorem schema_accepts_any_nonempty_select_witness :
    hasError (validate ⟨"Acme Inc", "a@acme.com", "AgricultureXYZ",
      "Entertainment", "Nigeria", "Lagos", "1 Main St"⟩) = false :=
  schema_accepts_any_nonempty_select
    ⟨"Acme Inc", "a@acme.com", "AgricultureXYZ",
      "Entertainment", "Nigeria", "Lagos", "1 Main St"⟩
    (by decide) (by decide) (by decide) (by decide) (by decide) (by decide) (by decide)

/-- C3: every input passing schema validation reaches `onSubmit`, which
issues exactly one POST to `{apiUrl}/api/v1/organizations` whose body is
exactly the seven validated fields plus `user_id` from the session and
the constant `description := "n/a"`, with the `Bearer` authorization
header built from the session's access token. -/
theorem valid_submit_posts_once (ss : Session) (u : String) (d : FormData)
    (o : Outcome) (h : hasError (validate d) = false) :
    handleSubmit (some ss) u d o = .submitted (onSubmit (some ss) u d o) ∧
    posts (onSubmit (some ss) u d o) =
      [Event.post (u ++ "/api/v1/organizations")
        { name := d.name, email := d.email, industry := d.industry,
          type := d.type, country := d.country, state := d.state,
          address := d.address, user_id := ss.user.map User.id,
          description := "n/a" }
        ("Bearer " ++ ss.access_token)] := by
  constructor
  · simp [handleSubmit, h]
  · rw [posts_onSubmit]; rfl

/-- C3 witness: the spec's sample valid input produces exactly the
expected single POST. -/
theorem valid_submit_posts_once_witness :
    hasError (validate ⟨"Acme Inc", "a@acme.com", "Technology",
      "Entertainment", "Nigeria", "Lagos", "1 Main St"⟩) = false ∧
    posts (onSubmit (some ⟨some ⟨"user-1"⟩, "tok123"⟩) "https://api.example.com"
      ⟨"Acme Inc", "a@acme.com", "Technology", "Entertainment", "Nigeria",
        "Lagos", "1 Main St"⟩ .ok) =
      [Event.post "https://api.example.com/api/v1/organizations"
        ⟨"Acme Inc", "a@acme.com", "Technology", "Entertainment", "Nigeria",
          "Lagos", "1 Main St", some "user-1", "n/a"⟩
        "Bearer tok123"] :=
  ⟨by decide,
   (valid_submit_posts_once ⟨some ⟨"user-1"⟩, "tok123"⟩ "https://api.example.com"
      ⟨"Acme Inc", "a@acme.com", "Technology", "Entertainment", "Nigeria",
        "Lagos", "1 Main St"⟩ .ok (by decide)).2⟩

/-- C4: a 2xx success shows the success toast and navigates to
`/dashboard` exactly once, with exactly one POST (no retry). -/
theorem success_toast_and_single_navigation (s : Option Session) (u : String)
    (d : FormData) :
    toasts (onSubmit s u d .ok) =
      [("Organization created successfully", "Continue to dashboard")] ∧
    navigations (onSubmit s u d .ok) = ["/dashboard"] ∧
    (posts (onSubmit s u d .ok)).length = 1 := by
  refine ⟨rfl, rfl, ?_⟩
  rw [posts_onSubmit]; rfl

/-- C5: on a 422 response the handler clears all field errors and then
sets one field-local error per `{field, message}` pair (a missing
`errors` key acting as the empty list): the final error state is exactly
the server pairs folded over the empty state, independent of whatever
errors were present before — no stale error survives. -/
theorem resp422_clears_then_sets_server_errors (s : Option Session) (u : String)
    (d : FormData) (st0 : FieldErrors) (eo : Option (List FieldMsg))
    (m : Option String) :
    applyTrace st0 (onSubmit s u d (.err (some ⟨422, ⟨eo, m⟩⟩))) =
      (eo.getD []).foldl (fun acc e => setErrorByName acc e.field e.message)
        noErrors := by
  simp [onSubmit, applyTrace, List.foldl_append, applyEvent, foldl_applyEvent_map]

/-- C6 counterexample: when a non-422 response carries `data.message`
present but equal to the empty string, the code does NOT toast that
server-provided message — `||` treats `""` as falsy, so the fixed
fallback is shown instead, refuting "description is the server-provided
data.message when present". -/
theorem empty_message_toasts_fallback :
    (some "" : Option String).isSome = true ∧
    toasts (onSubmit none "https://api.example.com"
      ⟨"Acme Inc", "a@acme.com", "Technology", "Entertainment", "Nigeria",
        "Lagos", "1 Main St"⟩
      (.err (some ⟨500, ⟨none, some ""⟩⟩))) =
      [("Error occurred", "Failed to submit the form. Please try again.")] ∧
    ("Failed to submit the form. Please try again." : String) ≠ "" := by
  refine ⟨rfl, rfl, by decide⟩

/-- C6 amended: any failure other than a 422 response (another error
status, or a transport failure with no response) shows exactly one
generic toast — its description the server's `data.message` when present
and non-empty, and otherwise (message absent or empty, both falsy under
JavaScript `||`) a fixed fallback string — and leaves the field-error
state untouched. -/
theorem non422_failure_toast_message_or_fallback (s : Option Session)
    (u : String) (d : FormData) (st0 : FieldErrors) (r : Option ErrorResponse)
    (h : ∀ resp, r = some resp → resp.status ≠ 422) :
    toasts (onSubmit s u d (.err r)) =
      [match r with
       | some resp =>
         ("Error occurred",
          jsOrElse resp.data.message "Failed to submit the form. Please try again.")
       | none => ("Error occured", "An unexpected error occurred.")] ∧
    applyTrace st0 (onSubmit s u d (.err r)) = st0 := by
  cases r with
  | none => exact ⟨rfl, rfl⟩
  | some resp =>
    have h4 : resp.status ≠ 422 := h resp rfl
    constructor
    · simp [onSubmit, toasts, h4]
    · simp [onSubmit, applyTrace, List.foldl_append, applyEvent, h4]

/-- C6 amended witness: a 500 response carrying the non-empty
`data.message = "Server down"` toasts that message and sets no field
errors. -/
theorem non422_failure_toast_message_or_fallback_witness :
    toasts (onSubmit none "https://api.example.com"
      ⟨"Acme Inc", "a@acme.com", "Technology", "Entertainment", "Nigeria",
        "Lagos", "1 Main St"⟩
      (.err (some ⟨500, ⟨none, some "Server down"⟩⟩))) =
      [("Error occurred", "Server down")] ∧
    applyTrace noErrors (onSubmit none "https://api.example.com"
      ⟨"Acme Inc", "a@acme.com", "Technology", "Entertainment", "Nigeria",
        "Lagos", "1 Main St"⟩
      (.err (some ⟨500, ⟨none, some "Server down"⟩⟩))) = noErrors :=
  non422_failure_toast_message_or_fallback none "https://api.example.com"
    ⟨"Acme Inc", "a@acme.com", "Technology", "Entertainment", "Nigeria",
      "Lagos", "1 Main St"⟩ noErrors (some ⟨500, ⟨none, some "Server down"⟩⟩)
    (by intro resp hr; cases hr; decide)

/-- C7: on every path of `onSubmit` — success, 422, other error,
transport failure — the loading flag is set to `true` first and reset to
`false` last, and these are the only loading transitions, so the submit
control is never left disabled. -/
theorem loading_set_and_reset_every_path (s : Option Session) (u : String)
    (d : FormData) (o : Outcome) :
    (onSubmit s u d o).head? = some (Event.setLoading true) ∧
    (onSubmit s u d o).getLast? = some (Event.setLoading false) ∧
    loadingEvents (onSubmit s u d o) =
      [Event.setLoading true, Event.setLoading false] := by
  refine ⟨rfl, ?_, ?_⟩
  · cases o with
    | ok => rfl
    | err ro =>
      cases ro with
      | none => rfl
      | some r =>
        rcases r with ⟨status, rdata⟩
        by_cases h422 : status = 422
        · rw [show onSubmit s u d (.err (some ⟨status, rdata⟩)) =
              (Event.setLoading true ::
               Event.post (requestUrl u) (mkPayload d s) (authHeader s) ::
               Event.clearAllErrors ::
               ((rdata.errors.getD []).map fun e =>
                 Event.setFieldError e.field e.message)) ++
              [Event.setLoading false] from by simp [onSubmit, h422]]
          exact List.getLast?_concat _
        · simp [onSubmit, h422]
  · cases o with
    | ok => rfl
    | err ro =>
      cases ro with
      | none => rfl
      | some r =>
        rcases r with ⟨status, rdata⟩
        by_cases h422 : status = 422
        · simp [onSubmit, h422, loadingEvents, List.filter_append]
        · simp [onSubmit, h422, loadingEvents]

/-- C8: a 422 error pair whose field name is not one of the seven form
fields is a silent no-op — applying its `setError` leaves the typed
field-error state unchanged, and the 422 branch shows no toast and
performs no navigation. -/
theorem unknown_field_error_silent_noop (st : FieldErrors) (f m : String)
    (s : Option Session) (u : String) (d : FormData)
    (eo : Option (List FieldMsg)) (mm : Option String)
    (h : parseFieldName f = none) :
    applyEvent st (Event.setFieldError f m) = st ∧
    toasts (onSubmit s u d (.err (some ⟨422, ⟨eo, mm⟩⟩))) = [] ∧
    navigations (onSubmit s u d (.err (some ⟨422, ⟨eo, mm⟩⟩))) = [] := by
  refine ⟨?_, ?_, ?_⟩
  · simp [applyEvent, setErrorByName, h]
  · simp [onSubmit, toasts]
  · simp [onSubmit, navigations]

/-- C8 witness: the unrecognized field name "company_size" parses to no
form field and its error assignment changes nothing. -/
theorem unknown_field_error_silent_noop_witness :
    parseFieldName "company_size" = none ∧
    applyEvent noErrors (Event.setFieldError "company_size" "too big") = noErrors :=
  ⟨by decide,
   (unknown_field_error_silent_noop noErrors "company_size" "too big" none ""
      ⟨"Acme Inc", "a@acme.com", "Technology", "Entertainment", "Nigeria",
        "Lagos", "1 Main St"⟩
      (some [⟨"company_size", "too big"⟩]) none (by decide)).1⟩

/-- C9: nothing guards against submitting before the asynchronously
fetched base URL resolves — with `apiUrl` still at its initial `""`, a
valid submission proceeds and the POST targets the incomplete URL
`"/api/v1/organizations"`. -/
theorem submit_before_url_resolved_targets_bare_path (s : Option Session)
    (d : FormData) (o : Outcome) (h : hasError (validate d) = false) :
    handleSubmit s "" d o = .submitted (onSubmit s "" d o) ∧
    posts (onSubmit s "" d o) =
      [Event.post "/api/v1/organizations" (mkPayload d s) (authHeader s)] := by
  constructor
  · simp [handleSubmit, h]
  · rw [posts_onSubmit]; rfl

/-- C9 witness: the sample valid input submitted with the unresolved
base URL issues a POST to the bare path. -/
theorem submit_before_url_resolved_targets_bare_path_witness :
    hasError (validate ⟨"Acme Inc", "a@acme.com", "Technology",
      "Entertainment", "Nigeria", "Lagos", "1 Main St"⟩) = false ∧
    posts (onSubmit (some ⟨some ⟨"user-1"⟩, "tok123"⟩) ""
      ⟨"Acme Inc", "a@acme.com", "Technology", "Entertainment", "Nigeria",
        "Lagos", "1 Main St"⟩ .ok) =
      [Event.post "/api/v1/organizations"
        ⟨"Acme Inc", "a@acme.com", "Technology", "Entertainment", "Nigeria",
          "Lagos", "1 Main St", some "user-1", "n/a"⟩
        "Bearer tok123"] :=
  ⟨by decide,
   (submit_before_url_resolved_targets_bare_path (some ⟨some ⟨"user-1"⟩, "tok123"⟩)
      ⟨"Acme Inc", "a@acme.com", "Technology", "Entertainment", "Nigeria",
        "Lagos", "1 Main St"⟩ .ok (by decide)).2⟩

/-- C10: with the session still unresolved (`undefined`), a valid
submission is issued all the same: optional chaining leaves the
payload's `user_id` absent and the template literal renders the
authorization header as the literal string `"Bearer undefined"`. -/
theorem undefined_session_still_submits (u : String) (d : FormData)
    (o : Outcome) (h : hasError (validate d) = false) :
    handleSubmit none u d o = .submitted (onSubmit none u d o) ∧
    posts (onSubmit none u d o) =
      [Event.post (u ++ "/api/v1/organizations")
        { name := d.name, email := d.email, industry := d.industry,
          type := d.type, country := d.country, state := d.state,
          address := d.address, user_id := none, description := "n/a" }
        "Bearer undefined"] := by
  constructor
  · simp [handleSubmit, h]
  · rw [posts_onSubmit]; rfl

/-- C10 witness: the sample valid input with no session posts with
`user_id := none` and the literal `"Bearer undefined"` header. -/
theorem undefined_session_still_submits_witness :
    hasError (validate ⟨"Acme Inc", "a@acme.com", "Technology",
      "Entertainment", "Nigeria", "Lagos", "1 Main St"⟩) = false ∧
    posts (onSubmit none "https://api.example.com"
      ⟨"Acme Inc", "a@acme.com", "Technology", "Entertainment", "Nigeria",
        "Lagos", "1 Main St"⟩ .ok) =
      [Event.post "https://api.example.com/api/v1/organizations"
        ⟨"Acme Inc", "a@acme.com", "Technology", "Entertainment", "Nigeria",
          "Lagos", "1 Main St", none, "n/a"⟩
        "Bearer undefined"] :=
  ⟨by decide,
   (undefined_session_still_submits "https://api.example.com"
      ⟨"Acme Inc", "a@acme.com", "Technology", "Entertainment", "Nigeria",
        "Lagos", "1 Main St"⟩ .ok (by decide)).2⟩

end OrgRegistration
